import Mathlib

/-!
# Verification of the AuthKit React Native SDK client

A shallow embedding of `src/client.ts` (class `AuthKitClient`) and the helpers it
uses from `src/utils/constants.ts`, `src/utils/pkce.ts` and `src/errors.ts`.

Modelling conventions:
* The storage adapter (`AsyncStorageAdapter` / `SecureStoreAdapter`) is a key-value
  map of strings, modelled as an association list; `getItem` returns the value of
  the first matching entry, `setItem` overwrites, `removeItem` deletes.
* JavaScript `Date.now()` readings are passed in as an explicit `now : Int`
  parameter (milliseconds).
* `expiresAt.toString()` / `Date.now().toString()` are modelled by `intToString`,
  and `parseInt(s, 10)` by `jsParseInt`, which returns `none` where JavaScript
  produces `NaN` (no leading digits).
* JavaScript truthiness tests on strings read from storage (`if (!token)`,
  `cachedUser && cachedAt`, `|| "Bearer"` …) are modelled by `truthy`, which maps
  the empty string to `none`.
* Network activity of `this.http` (axios) is modelled by oracle functions giving
  the settled outcome of each axios invocation; errors arrive already translated
  to `AKError` values (in the source the axios response interceptor rejects with
  `handleError(error)`, and `handleError` is the identity on `AuthKitError`
  instances, so the error observed by the `catch` blocks is an `AuthKitError`).
  Each embedded operation also reports which requests it issued, so claims about
  "no network call is made" are about the recorded request trace.
* The user profile is handled opaquely by the client (`JSON.stringify` on write,
  `JSON.parse` on read of the very same string), so the profile is modelled as
  the raw JSON string.
-/

namespace AuthKit

/-! ## Storage model -/

/-- The storage adapter: an association list from keys to string values. -/
abbrev Store := List (String × String)

/-- `storage.getItem(key)`: first binding of the key, if any. -/
def getItem (s : Store) (k : String) : Option String :=
  match s with
  | [] => none
  | p :: t => if p.1 = k then some p.2 else getItem t k

/-- `storage.removeItem(key)`: drop every binding of the key. -/
def removeItem (s : Store) (k : String) : Store :=
  match s with
  | [] => []
  | p :: t => if p.1 = k then removeItem t k else p :: removeItem t k

/-- `storage.setItem(key, value)`: overwrite the binding of the key. -/
def setItem (s : Store) (k v : String) : Store :=
  (k, v) :: removeItem s k

/-- JavaScript truthiness of a string read from storage: `null` and `""` are falsy. -/
def truthy (o : Option String) : Option String :=
  match o with
  | none => none
  | some s => if s = "" then none else some s

theorem getItem_removeItem (s : Store) (k k' : String) :
    getItem (removeItem s k) k' = if k' = k then none else getItem s k' := by
  induction s with
  | nil => simp [getItem, removeItem]
  | cons p t ih =>
    by_cases hpk : p.1 = k <;> by_cases hpk' : p.1 = k' <;> by_cases hk : k' = k <;>
      simp_all [getItem, removeItem]

theorem getItem_setItem (s : Store) (k v k' : String) :
    getItem (setItem s k v) k' = if k' = k then some v else getItem s k' := by
  rcases eq_or_ne k' k with rfl | h
  · simp [setItem, getItem, getItem_removeItem]
  · simp [setItem, getItem, getItem_removeItem, h, Ne.symm h]

theorem getItem_setItem_self (s : Store) (k v : String) :
    getItem (setItem s k v) k = some v := by
  simp [getItem_setItem]

theorem getItem_setItem_ne (s : Store) (k v k' : String) (h : k' ≠ k) :
    getItem (setItem s k v) k' = getItem s k' := by
  simp [getItem_setItem, h]

theorem getItem_removeItem_self (s : Store) (k : String) :
    getItem (removeItem s k) k = none := by
  simp [getItem_removeItem]

theorem getItem_removeItem_ne (s : Store) (k k' : String) (h : k' ≠ k) :
    getItem (removeItem s k) k' = getItem s k' := by
  simp [getItem_removeItem, h]

/-! ## Decimal rendering and parsing (`toString` / `parseInt(·, 10)`) -/

/-- Decimal digits of a natural number, least significant first; fuel-driven
structural recursion so that proofs can evaluate it by kernel reduction. -/
def natToRevDigitsAux : Nat → Nat → List Char
  | 0, _ => []
  | fuel + 1, n =>
    if n < 10 then [Char.ofNat (48 + n)]
    else Char.ofNat (48 + n % 10) :: natToRevDigitsAux fuel (n / 10)

/-- Decimal digits of a natural number, least significant first. -/
def natToRevDigits (n : Nat) : List Char :=
  natToRevDigitsAux (n + 1) n

/-- `n.toString()` for a natural number. -/
def natToString (n : Nat) : String :=
  ⟨(natToRevDigits n).reverse⟩

/-- `i.toString()` for a JavaScript integer-valued number. -/
def intToString (i : Int) : String :=
  if i < 0 then "-" ++ natToString i.natAbs else natToString i.natAbs

/-- Is the character an ASCII decimal digit? -/
def isDigitChar (c : Char) : Bool :=
  48 ≤ c.toNat && c.toNat ≤ 57

/-- Numeric value of a decimal digit character. -/
def digitVal (c : Char) : Nat := c.toNat - 48

/-- Value of a most-significant-first digit list. -/
def digitsToNat (l : List Char) : Nat :=
  l.foldl (fun acc c => acc * 10 + digitVal c) 0

/-- Parse the longest leading run of decimal digits; `none` when there is none
(JavaScript `parseInt` returns `NaN` there). -/
def parseLeadingDigits (l : List Char) : Option Nat :=
  let ds := l.takeWhile isDigitChar
  if ds.isEmpty then none else some (digitsToNat ds)

/-- `parseInt(s, 10)`; `none` models `NaN`. -/
def jsParseInt (s : String) : Option Int :=
  match s.data with
  | [] => none
  | c :: rest =>
    if c = '-' then (parseLeadingDigits rest).map (fun n => -(n : Int))
    else if c = '+' then (parseLeadingDigits rest).map (fun n => (n : Int))
    else (parseLeadingDigits (c :: rest)).map (fun n => (n : Int))

theorem toNat_ofNat_digit (d : Nat) (h : d < 10) :
    (Char.ofNat (48 + d)).toNat = 48 + d := by
  interval_cases d <;> decide

theorem isDigitChar_ofNat_digit (d : Nat) (h : d < 10) :
    isDigitChar (Char.ofNat (48 + d)) = true := by
  simp [isDigitChar, toNat_ofNat_digit d h]
  omega

theorem digitVal_ofNat_digit (d : Nat) (h : d < 10) :
    digitVal (Char.ofNat (48 + d)) = d := by
  simp [digitVal, toNat_ofNat_digit d h]

theorem digitsToNat_append_singleton (l : List Char) (c : Char) :
    digitsToNat (l ++ [c]) = 10 * digitsToNat l + digitVal c := by
  simp [digitsToNat, List.foldl_append, Nat.mul_comm]

theorem natToRevDigitsAux_all_digits :
    ∀ (fuel n : Nat), n < fuel → ∀ c ∈ natToRevDigitsAux fuel n, isDigitChar c = true := by
  intro fuel
  induction fuel with
  | zero => intro n hn; omega
  | succ f ih =>
    intro n hn c hc
    simp only [natToRevDigitsAux] at hc
    split at hc
    · next h =>
      simp only [List.mem_singleton] at hc
      subst hc
      exact isDigitChar_ofNat_digit n h
    · next h =>
      rw [List.mem_cons] at hc
      rcases hc with hc | hc
      · subst hc
        exact isDigitChar_ofNat_digit (n % 10) (Nat.mod_lt _ (by omega))
      · have hdiv : n / 10 < f := by
          have := Nat.div_lt_self (show 0 < n by omega) (show 1 < 10 by omega)
          omega
        exact ih (n / 10) hdiv c hc

theorem natToRevDigits_all_digits (n : Nat) :
    ∀ c ∈ natToRevDigits n, isDigitChar c = true :=
  natToRevDigitsAux_all_digits (n + 1) n (Nat.lt_succ_self n)

theorem natToRevDigits_ne_nil (n : Nat) : natToRevDigits n ≠ [] := by
  rw [natToRevDigits]
  simp only [natToRevDigitsAux]
  split <;> simp

theorem digitsToNat_reverse_natToRevDigitsAux :
    ∀ (fuel n : Nat), n < fuel → digitsToNat (natToRevDigitsAux fuel n).reverse = n := by
  intro fuel
  induction fuel with
  | zero => intro n hn; omega
  | succ f ih =>
    intro n hn
    simp only [natToRevDigitsAux]
    split
    · next h =>
      simp [digitsToNat, digitVal_ofNat_digit n h]
    · next h =>
      have hdiv : n / 10 < f := by
        have := Nat.div_lt_self (show 0 < n by omega) (show 1 < 10 by omega)
        omega
      rw [List.reverse_cons, digitsToNat_append_singleton, ih (n / 10) hdiv,
        digitVal_ofNat_digit (n % 10) (Nat.mod_lt _ (by omega))]
      omega

theorem digitsToNat_reverse_natToRevDigits (n : Nat) :
    digitsToNat (natToRevDigits n).reverse = n :=
  digitsToNat_reverse_natToRevDigitsAux (n + 1) n (Nat.lt_succ_self n)

theorem parseLeadingDigits_natToString (n : Nat) :
    parseLeadingDigits (natToString n).data = some n := by
  have hall : ∀ c ∈ (natToRevDigits n).reverse, isDigitChar c = true := by
    intro c hc
    exact natToRevDigits_all_digits n c (List.mem_reverse.mp hc)
  have htake : ((natToRevDigits n).reverse).takeWhile isDigitChar
      = (natToRevDigits n).reverse := List.takeWhile_eq_self_iff.mpr hall
  have hne : ((natToRevDigits n).reverse).isEmpty = false := by
    simp [natToRevDigits_ne_nil n]
  show parseLeadingDigits (natToRevDigits n).reverse = some n
  rw [parseLeadingDigits, htake]
  simp [hne, digitsToNat_reverse_natToRevDigits n]

theorem natToString_head_digit (n : Nat) :
    ∃ c cs, (natToString n).data = c :: cs ∧ isDigitChar c = true := by
  rcases h : (natToString n).data with _ | ⟨c, cs⟩
  · exfalso
    have := natToRevDigits_ne_nil n
    have hd : (natToString n).data = (natToRevDigits n).reverse := rfl
    rw [hd] at h
    simp at h
    exact this h
  · refine ⟨c, cs, rfl, ?_⟩
    have hd : (natToString n).data = (natToRevDigits n).reverse := rfl
    have hmem : c ∈ (natToRevDigits n).reverse := by
      rw [← hd, h]
      exact List.mem_cons_self c cs
    exact natToRevDigits_all_digits n c (List.mem_reverse.mp hmem)

theorem jsParseInt_natToString (n : Nat) :
    jsParseInt (natToString n) = some (n : Int) := by
  obtain ⟨c, cs, hdata, hdig⟩ := natToString_head_digit n
  have hminus : c ≠ '-' := by
    rintro rfl
    exact absurd hdig (by decide)
  have hplus : c ≠ '+' := by
    rintro rfl
    exact absurd hdig (by decide)
  have hparse := parseLeadingDigits_natToString n
  rw [hdata] at hparse
  rw [jsParseInt, hdata]
  simp [hminus, hplus, hparse]

theorem jsParseInt_intToString (i : Int) :
    jsParseInt (intToString i) = some i := by
  rw [intToString]
  split
  · next hneg =>
    have hdata : ("-" ++ natToString i.natAbs).data
        = '-' :: (natToString i.natAbs).data := by
      simp [natToString, String.data_append]
    rw [jsParseInt, hdata]
    simp [parseLeadingDigits_natToString i.natAbs, Int.natCast_natAbs, abs_of_neg hneg]
  · next hpos =>
    rw [jsParseInt_natToString]
    congr 1
    exact Int.natAbs_of_nonneg (not_lt.mp hpos)

/-! ## Constants (`src/utils/constants.ts`) -/

/-- `STORAGE_KEYS.ACCESS_TOKEN` -/
def ACCESS_TOKEN : String := "access_token"
/-- `STORAGE_KEYS.REFRESH_TOKEN` -/
def REFRESH_TOKEN : String := "refresh_token"
/-- `STORAGE_KEYS.TOKEN_TYPE` -/
def TOKEN_TYPE : String := "token_type"
/-- `STORAGE_KEYS.EXPIRES_AT` -/
def EXPIRES_AT : String := "expires_at"
/-- `STORAGE_KEYS.USER` -/
def USER_KEY : String := "user"
/-- `STORAGE_KEYS.USER_CACHED_AT` -/
def USER_CACHED_AT : String := "user_cached_at"
/-- `STORAGE_KEYS.PKCE_VERIFIER` -/
def PKCE_VERIFIER : String := "pkce_verifier"
/-- `STORAGE_KEYS.OAUTH_STATE` -/
def OAUTH_STATE : String := "oauth_state"

/-- `ENDPOINTS.TOKEN` -/
def EP_TOKEN : String := "/oauth/token/"
/-- `ENDPOINTS.USERINFO` -/
def EP_USERINFO : String := "/api/auth/userinfo/"
/-- `ENDPOINTS.PROFILE` -/
def EP_PROFILE : String := "/api/auth/me/"
/-- `ENDPOINTS.INTROSPECT` -/
def EP_INTROSPECT : String := "/oauth/introspect/"
/-- `ENDPOINTS.REVOKE` -/
def EP_REVOKE : String := "/oauth/revoke_token/"

/-- `REFRESH_COOLDOWN` (ms), from `AuthKitClient`. -/
def REFRESH_COOLDOWN : Int := 1000
/-- `USER_CACHE_DURATION` (ms), from `AuthKitClient`. -/
def USER_CACHE_DURATION : Int := 5 * 60 * 1000

/-! ## Errors (`src/errors.ts`)

Only the error classes reachable from the modelled operations are represented.
`handleError` on a value that is already an `AuthKitError` instance returns it
unchanged, so `handleErrorAK` below is the identity. -/

/-- The `AuthKitError` hierarchy, as observed by callers. -/
inductive AKError where
  /-- `AuthenticationError(message)` -/
  | authentication (message : String)
  /-- `TokenError(message)` -/
  | token (message : String)
  /-- `NetworkError(message, statusCode?)` -/
  | network (message : String) (statusCode : Option Nat)
  /-- `ValidationError(message, field?)` -/
  | validation (message : String) (field : Option String)
  /-- plain `AuthKitError(message)` -/
  | base (message : String)
deriving DecidableEq, Repr

/-- `error instanceof AuthenticationError` -/
def AKError.isAuthentication : AKError → Bool
  | .authentication _ => true
  | _ => false

/-- `error instanceof TokenError` -/
def AKError.isToken : AKError → Bool
  | .token _ => true
  | _ => false

/-- `handleError(error)` when `error instanceof AuthKitError`: the error is
returned unchanged (`src/client.ts`, `handleError`). -/
def handleErrorAK (e : AKError) : AKError := e

instance {ε α : Type} [DecidableEq ε] [DecidableEq α] : DecidableEq (Except ε α)
  | .ok a, .ok b => decidable_of_iff (a = b) (by simp)
  | .ok _, .error _ => isFalse (by simp)
  | .error _, .ok _ => isFalse (by simp)
  | .error e, .error f => decidable_of_iff (e = f) (by simp)

/-- Events emitted through `emit` (`EVENTS` in `src/utils/constants.ts`);
only the events reachable from the modelled operations appear. -/
inductive Ev where
  | token_refreshed
  | token_expired
  | auth_error
  | user_logged_in
deriving DecidableEq, Repr

/-! ## Data (`src/types.ts`) -/

/-- OAuth 2.0 token response (`TokenResponse`). `expires_in` is in seconds. -/
structure TokenResponse where
  access_token : String
  refresh_token : Option String
  token_type : String
  expires_in : Int
  /-- space-separated granted scopes -/
  scope : String
deriving DecidableEq, Repr

/-- The resolved client configuration (`Required<AuthKitConfig>`), restricted to
the fields the modelled operations read. -/
structure Config where
  clientId : String
  redirectUri : String
  scopes : List String
  pkce : Bool
  clientSecret : Option String
deriving DecidableEq, Repr

/-! ## Token persistence (`storeTokens`, `getAccessToken`, `getRefreshToken`,
`getTokens`) -/

/-- `storeTokens(tokens)` (`src/client.ts:472-486`): store the access token and
token type, store the refresh token only when the response carries a truthy one
(`if (tokens.refresh_token)` — a missing field and an empty string both skip
the write), and store the absolute expiry
`Date.now() + tokens.expires_in * 1000`. -/
def storeTokens (tokens : TokenResponse) (store : Store) (now : Int) : Store :=
  let s1 := setItem store ACCESS_TOKEN tokens.access_token
  let s2 := setItem s1 TOKEN_TYPE tokens.token_type
  let s3 := match truthy tokens.refresh_token with
    | some rt => setItem s2 REFRESH_TOKEN rt
    | none => s2
  setItem s3 EXPIRES_AT (intToString (now + tokens.expires_in * 1000))

/-- `getAccessToken()`: raw storage read. -/
def getAccessToken (store : Store) : Option String :=
  getItem store ACCESS_TOKEN

/-- `getRefreshToken()`: raw storage read. -/
def getRefreshToken (store : Store) : Option String :=
  getItem store REFRESH_TOKEN

/-- The record returned by `getTokens()`. `expiresAt = none` models the `NaN`
produced by `parseInt` on a non-numeric stored value. -/
structure TokenMeta where
  accessToken : String
  refreshToken : Option String
  tokenType : String
  expiresAt : Option Int
  scopes : List String
deriving DecidableEq, Repr

/-- `getTokens()` (`src/client.ts:835-865`): `null` without an access token;
token type defaults to `"Bearer"`, expiry defaults to `0` when no value is
stored, and the `scopes` field is `this.config.scopes`. -/
def getTokens (cfg : Config) (store : Store) : Option TokenMeta :=
  match truthy (getAccessToken store) with
  | none => none
  | some accessToken =>
    let tokenType := (truthy (getItem store TOKEN_TYPE)).getD "Bearer"
    let refreshToken := truthy (getRefreshToken store)
    let expiresAt : Option Int :=
      match truthy (getItem store EXPIRES_AT) with
      | none => some 0
      | some s => jsParseInt s
    some { accessToken, refreshToken, tokenType, expiresAt, scopes := cfg.scopes }

/-! ## Token refresh (`refreshAccessToken`, `src/client.ts:532-579`) -/

/-- `client_secret` form field, present when `this.config.clientSecret` is truthy. -/
def secretParams (cfg : Config) : List (String × String) :=
  match truthy cfg.clientSecret with
  | some cs => [("client_secret", cs)]
  | none => []

/-- The urlencoded body POSTed to the token endpoint by `refreshAccessToken`. -/
def refreshBody (cfg : Config) (refreshToken : String) : List (String × String) :=
  [("grant_type", "refresh_token"),
   ("refresh_token", refreshToken),
   ("client_id", cfg.clientId)] ++ secretParams cfg

/-- Result of a `refreshAccessToken()` call: the settled promise, the storage
afterwards, the new `lastRefreshAttempt` field, the bodies POSTed to the token
endpoint, and the emitted events. -/
structure RefreshResult where
  outcome : Except AKError TokenResponse
  store : Store
  lastRefreshAttempt : Int
  tokenPosts : List (List (String × String))
  events : List Ev
deriving Repr

/-- `refreshAccessToken()`: rejects with a `TokenError` when called within
`REFRESH_COOLDOWN` of the previous attempt (before recording the attempt and
before any network call); otherwise records the attempt, rejects with a
`TokenError` when no refresh token is stored, else POSTs to the token endpoint
and stores the response tokens. The `catch` block emits `token_expired` and
rethrows `handleError(error)`; on success `token_refreshed` is emitted.
`tokenNet` is the oracle for the settled outcome of the axios POST. -/
def refreshAccessToken (cfg : Config) (store : Store) (last now : Int)
    (tokenNet : List (String × String) → Except AKError TokenResponse) :
    RefreshResult :=
  if now - last < REFRESH_COOLDOWN then
    { outcome := .error (handleErrorAK
        (.token "Token refresh rate limit exceeded. Please wait before retrying."))
      store := store
      lastRefreshAttempt := last
      tokenPosts := []
      events := [.token_expired] }
  else
    match truthy (getRefreshToken store) with
    | none =>
      { outcome := .error (handleErrorAK (.token "No refresh token available"))
        store := store
        lastRefreshAttempt := now
        tokenPosts := []
        events := [.token_expired] }
    | some rt =>
      let body := refreshBody cfg rt
      match tokenNet body with
      | .error e =>
        { outcome := .error (handleErrorAK e)
          store := store
          lastRefreshAttempt := now
          tokenPosts := [body]
          events := [.token_expired] }
      | .ok tokens =>
        { outcome := .ok tokens
          store := storeTokens tokens store now
          lastRefreshAttempt := now
          tokenPosts := [body]
          events := [.token_refreshed] }

/-! ## `isAuthenticated()` (`src/client.ts:505-527`) -/

/-- Result of an `isAuthenticated()` call. `refreshCalls` counts invocations of
`refreshAccessToken()`. -/
structure AuthCheckResult where
  result : Bool
  store : Store
  lastRefreshAttempt : Int
  refreshCalls : Nat
  tokenPosts : List (List (String × String))
  events : List Ev
deriving DecidableEq, Repr

/-- `isAuthenticated()`: `false` without a (truthy) access token; when a stored
expiry has passed, tries one refresh and swallows its error; otherwise `true`.
A stored expiry that `parseInt` cannot parse gives `NaN`, and
`Date.now() >= NaN` is `false`, so no refresh is attempted. -/
def isAuthenticated (cfg : Config) (store : Store) (last now : Int)
    (tokenNet : List (String × String) → Except AKError TokenResponse) :
    AuthCheckResult :=
  match truthy (getAccessToken store) with
  | none =>
    { result := false, store := store, lastRefreshAttempt := last
      refreshCalls := 0, tokenPosts := [], events := [] }
  | some _ =>
    let tryRefresh : Unit → AuthCheckResult := fun _ =>
      let r := refreshAccessToken cfg store last now tokenNet
      { result := r.outcome.isOk
        store := r.store
        lastRefreshAttempt := r.lastRefreshAttempt
        refreshCalls := 1
        tokenPosts := r.tokenPosts
        events := r.events }
    match truthy (getItem store EXPIRES_AT) with
    | some es =>
      match jsParseInt es with
      | some expiry =>
        if now ≥ expiry then tryRefresh ()
        else
          { result := true, store := store, lastRefreshAttempt := last
            refreshCalls := 0, tokenPosts := [], events := [] }
      | none =>
        { result := true, store := store, lastRefreshAttempt := last
          refreshCalls := 0, tokenPosts := [], events := [] }
    | none =>
      { result := true, store := store, lastRefreshAttempt := last
        refreshCalls := 0, tokenPosts := [], events := [] }

/-! ## `getCurrentUser(forceRefresh)` (`src/client.ts:584-618`) -/

/-- Result of a `getCurrentUser()` call. `userGets` counts GETs issued by this
call to the userinfo endpoint. -/
structure UserResult where
  outcome : Except AKError String
  store : Store
  userGets : Nat
deriving Repr

/-- The cache lookup at the head of `getCurrentUser`: unless `forceRefresh`,
the cached profile is used when both `user` and `user_cached_at` are present
(and truthy) and `Date.now() - parseInt(cachedAt)` is below
`USER_CACHE_DURATION`. A `NaN` cache timestamp fails the `<` comparison and
falls through to a fetch. -/
def cachedUser (forceRefresh : Bool) (store : Store) (now : Int) : Option String :=
  if forceRefresh then none
  else
    match truthy (getItem store USER_KEY), truthy (getItem store USER_CACHED_AT) with
    | some cu, some ca =>
      match jsParseInt ca with
      | some t => if now - t < USER_CACHE_DURATION then some cu else none
      | none => none
    | _, _ => none

/-- `getCurrentUser(forceRefresh)`: return the fresh-enough cached profile, or
else GET the userinfo endpoint, overwrite cache and timestamp on success, and
propagate the (already translated) failure otherwise. `userNet` is the oracle
for the settled outcome of the axios GET. -/
def getCurrentUser (forceRefresh : Bool) (store : Store) (now : Int)
    (userNet : Except AKError String) : UserResult :=
  match cachedUser forceRefresh store now with
  | some cu => { outcome := .ok cu, store := store, userGets := 0 }
  | none =>
    match userNet with
    | .error e => { outcome := .error (handleErrorAK e), store := store, userGets := 1 }
    | .ok u =>
      { outcome := .ok u
        store := setItem (setItem store USER_KEY u) USER_CACHED_AT (intToString now)
        userGets := 1 }

/-! ## OAuth callback handling (`handleCallback`, `src/client.ts:404-467`) -/

/-- `cleanupOAuthState()` (`src/client.ts:392-399`): remove the CSRF state and
the PKCE verifier. -/
def cleanupOAuthState (s : Store) : Store :=
  removeItem (removeItem s OAUTH_STATE) PKCE_VERIFIER

/-- The urlencoded body POSTed to the token endpoint by `handleCallback`. -/
def callbackBody (cfg : Config) (code : String) (codeVerifier : Option String) :
    List (String × String) :=
  [("grant_type", "authorization_code"),
   ("code", code),
   ("client_id", cfg.clientId),
   ("redirect_uri", cfg.redirectUri)]
  ++ secretParams cfg
  ++ (match codeVerifier with
      | some v => [("code_verifier", v)]
      | none => [])

/-- Result of a `handleCallback()` call. -/
structure CallbackResult where
  outcome : Except AKError TokenResponse
  store : Store
  tokenPosts : List (List (String × String))
  userGets : Nat
  events : List Ev
deriving Repr

/-- `handleCallback(code, state)`: reject with an `AuthenticationError` when
`state` differs from the persisted CSRF state (before any network call);
otherwise exchange the code (attaching the stored PKCE verifier when PKCE is
enabled), store the tokens, remove the CSRF state and PKCE verifier, fetch the
profile through `getCurrentUser()` and emit `user_logged_in`. The `catch`
rethrows `handleError(error)` and performs no storage cleanup of its own. -/
def handleCallback (cfg : Config) (code state : String) (store : Store) (now : Int)
    (tokenNet : List (String × String) → Except AKError TokenResponse)
    (userNet : Except AKError String) : CallbackResult :=
  let savedState := getItem store OAUTH_STATE
  if savedState ≠ some state then
    { outcome := .error (handleErrorAK
        (.authentication "Invalid state parameter - CSRF check failed"))
      store := store
      tokenPosts := []
      userGets := 0
      events := [] }
  else
    let codeVerifier :=
      if cfg.pkce then truthy (getItem store PKCE_VERIFIER) else none
    let body := callbackBody cfg code codeVerifier
    match tokenNet body with
    | .error e =>
      { outcome := .error (handleErrorAK e)
        store := store
        tokenPosts := [body]
        userGets := 0
        events := [] }
    | .ok tokens =>
      let s1 := storeTokens tokens store now
      let s2 := removeItem s1 OAUTH_STATE
      let s3 := removeItem s2 PKCE_VERIFIER
      let u := getCurrentUser false s3 now userNet
      match u.outcome with
      | .ok _ =>
        { outcome := .ok tokens
          store := u.store
          tokenPosts := [body]
          userGets := u.userGets
          events := [.user_logged_in] }
      | .error e =>
        { outcome := .error (handleErrorAK e)
          store := u.store
          tokenPosts := [body]
          userGets := u.userGets
          events := [] }

/-! ## `login()` (`src/client.ts:298-387`) -/

/-- Outcome of `WebBrowser.openAuthSessionAsync`. A `success` carries the
query parameters produced by `parseDeepLinkUrl(result.url)`; `dismiss` stands
for any result type other than `"success"` and `"cancel"`, for which `login()`
resolves without doing anything further. -/
inductive BrowserOutcome where
  | success (code : Option String) (state : Option String) (error : Option String)
  | cancel
  | dismiss
deriving DecidableEq, Repr

/-- Result of a `login()` call. -/
structure LoginResult where
  outcome : Except AKError Unit
  store : Store
  tokenPosts : List (List (String × String))
  userGets : Nat
  events : List Ev
deriving Repr

/-- The `catch` block of `login()`: clean up the CSRF state and PKCE verifier
(ignoring cleanup failures), emit `auth_error` with the error, and rethrow
`handleError(error)`. -/
def loginCatch (e : AKError) (s : Store)
    (tokenPosts : List (List (String × String))) (userGets : Nat)
    (events : List Ev) : LoginResult :=
  { outcome := .error (handleErrorAK e)
    store := cleanupOAuthState s
    tokenPosts := tokenPosts
    userGets := userGets
    events := events ++ [.auth_error] }

/-- `login()`: persist a fresh CSRF state (and, with PKCE enabled, a fresh code
verifier), open the browser session, and dispatch on its outcome. Every inner
failure cleans up the OAuth state and throws an `AuthenticationError`, which the
surrounding `catch` (`loginCatch`) funnels. `genState` and `genVerifier` stand
for the values produced by `generateState()` / `generatePKCEParams()`. -/
def login (cfg : Config) (store0 : Store) (genState genVerifier : String)
    (browser : BrowserOutcome) (now : Int)
    (tokenNet : List (String × String) → Except AKError TokenResponse)
    (userNet : Except AKError String) : LoginResult :=
  let s1 := setItem store0 OAUTH_STATE genState
  let s2 := if cfg.pkce then setItem s1 PKCE_VERIFIER genVerifier else s1
  match browser with
  | .success code retState err =>
    match truthy err with
    | some e =>
      loginCatch (.authentication ("OAuth error: " ++ e)) (cleanupOAuthState s2) [] 0 []
    | none =>
      match truthy code, truthy retState with
      | some c, some rs =>
        let savedState := getItem s2 OAUTH_STATE
        if some rs ≠ savedState then
          loginCatch (.authentication "Invalid state parameter")
            (cleanupOAuthState s2) [] 0 []
        else
          let cb := handleCallback cfg c rs s2 now tokenNet userNet
          match cb.outcome with
          | .ok _ =>
            { outcome := .ok ()
              store := cb.store
              tokenPosts := cb.tokenPosts
              userGets := cb.userGets
              events := cb.events }
          | .error e => loginCatch e cb.store cb.tokenPosts cb.userGets cb.events
      | _, _ =>
        loginCatch (.authentication "Missing code or state in callback")
          (cleanupOAuthState s2) [] 0 []
  | .cancel =>
    loginCatch (.authentication "Login cancelled by user") (cleanupOAuthState s2) [] 0 []
  | .dismiss =>
    { outcome := .ok (), store := s2, tokenPosts := [], userGets := 0, events := [] }

/-! ## Request interceptor (`setupInterceptors`, `src/client.ts:163-188`) -/

/-- The allow-list of endpoints that receive an `Authorization` header. -/
def protectedEndpoints : List String :=
  [EP_USERINFO, EP_PROFILE, EP_INTROSPECT, EP_REVOKE]

/-- `url.includes(sub)`: `sub` occurs as a contiguous substring of `url`. -/
def strIncludes (url sub : String) : Bool :=
  decide (List.IsInfix sub.data url.data)

/-- `config.url && protectedEndpoints.some((endpoint) => config.url?.includes(endpoint))`. -/
def shouldAttachAuth (url : Option String) : Bool :=
  match url with
  | none => false
  | some u => protectedEndpoints.any (fun ep => strIncludes u ep)

/-- The request interceptor: add `Authorization: Bearer <token>` only when the
request URL matches the allow-list and a (truthy) access token is stored;
otherwise pass the request headers through untouched. -/
def requestInterceptor (url : Option String) (store : Store)
    (headers : List (String × String)) : List (String × String) :=
  if shouldAttachAuth url then
    match truthy (getAccessToken store) with
    | some t => setItem headers "Authorization" ("Bearer " ++ t)
    | none => headers
  else headers

/-! ## Concrete fixtures used by witnesses and counterexamples -/

/-- A resolved configuration with PKCE enabled and the default scopes. -/
def cfgEx : Config :=
  { clientId := "client-1", redirectUri := "app://callback",
    scopes := ["read", "write", "profile", "email"], pkce := true,
    clientSecret := none }

/-- A token response that grants only the `read` scope. -/
def tokensEx : TokenResponse :=
  { access_token := "at-1", refresh_token := some "rt-1", token_type := "Bearer",
    expires_in := 3600, scope := "read" }

/-- A token response with no `refresh_token` field. -/
def tokensNoRefreshEx : TokenResponse :=
  { access_token := "at-2", refresh_token := none, token_type := "Bearer",
    expires_in := 60, scope := "read write" }

/-- A token-endpoint oracle that always fails with a network error. -/
def netFailEx : List (String × String) → Except AKError TokenResponse :=
  fun _ => .error (.network "Network request failed" none)

/-- A token-endpoint oracle that always succeeds with `tokensEx`. -/
def netOkEx : List (String × String) → Except AKError TokenResponse :=
  fun _ => .ok tokensEx

/-- A userinfo oracle that always fails with a network error. -/
def userFailEx : Except AKError String := .error (.network "Network request failed" none)

/-- A userinfo oracle producing an opaque profile payload. -/
def userOkEx : Except AKError String := .ok "profile-1"

/-! ## C1: CSRF mismatch in `handleCallback` -/

/-- C1: for every invocation of `handleCallback(code, state)` in which `state`
differs from the CSRF state persisted under `oauth_state` (including when no
CSRF state is persisted at all), the call rejects with an Authentication error
and no request is sent to the token endpoint. -/
theorem handleCallback_csrf_mismatch_rejects_without_network
    (cfg : Config) (code state : String) (store : Store) (now : Int)
    (tokenNet : List (String × String) → Except AKError TokenResponse)
    (userNet : Except AKError String)
    (h : getItem store OAUTH_STATE ≠ some state) :
    (handleCallback cfg code state store now tokenNet userNet).outcome
      = .error (.authentication "Invalid state parameter - CSRF check failed")
    ∧ (handleCallback cfg code state store now tokenNet userNet).tokenPosts = [] := by
  simp [handleCallback, h, handleErrorAK]

/-- Witness for C1 at a persisted state `"state-a"` and callback state `"state-b"`. -/
theorem handleCallback_csrf_mismatch_witness :
    (handleCallback cfgEx "code-1" "state-b" [(OAUTH_STATE, "state-a")] 0 netFailEx userFailEx).outcome
      = .error (.authentication "Invalid state parameter - CSRF check failed")
    ∧ (handleCallback cfgEx "code-1" "state-b" [(OAUTH_STATE, "state-a")] 0 netFailEx userFailEx).tokenPosts
      = [] :=
  handleCallback_csrf_mismatch_rejects_without_network cfgEx "code-1" "state-b"
    [(OAUTH_STATE, "state-a")] 0 netFailEx userFailEx (by decide)

/-! ## C2: refresh cooldown -/

/-- C2: a `refreshAccessToken()` call that begins within `REFRESH_COOLDOWN`
(1000 ms) of the previous attempt rejects with a Token error, POSTs nothing to
the token endpoint, and does not advance the last-attempt timestamp; a call for
which the cooldown has exactly elapsed records its own time as the new
last-attempt timestamp. -/
theorem refreshAccessToken_rate_limited_rejects_without_network
    (cfg : Config) (store : Store) (last now : Int)
    (tokenNet : List (String × String) → Except AKError TokenResponse)
    (h : now - last < REFRESH_COOLDOWN) :
    (refreshAccessToken cfg store last now tokenNet).outcome
      = .error (.token "Token refresh rate limit exceeded. Please wait before retrying.")
    ∧ (refreshAccessToken cfg store last now tokenNet).tokenPosts = []
    ∧ (refreshAccessToken cfg store last now tokenNet).lastRefreshAttempt = last
    ∧ (refreshAccessToken cfg store last (last + REFRESH_COOLDOWN) tokenNet).lastRefreshAttempt
      = last + REFRESH_COOLDOWN := by
  refine ⟨?_, ?_, ?_, ?_⟩
  · rw [refreshAccessToken, if_pos h]
    rfl
  · rw [refreshAccessToken, if_pos h]
  · rw [refreshAccessToken, if_pos h]
  · have hcool : ¬ ((last + REFRESH_COOLDOWN) - last < REFRESH_COOLDOWN) := by
      rw [REFRESH_COOLDOWN]
      omega
    rw [refreshAccessToken, if_neg hcool]
    cases h1 : truthy (getRefreshToken store) with
    | none => simp [h1]
    | some rt =>
      cases h2 : tokenNet (refreshBody cfg rt) with
      | error e => simp [h1, h2]
      | ok t => simp [h1, h2]

/-- Witness for C2: a second call 500 ms after the first is rate limited. -/
theorem refreshAccessToken_rate_limited_witness :
    (refreshAccessToken cfgEx [(REFRESH_TOKEN, "rt-1")] 0 500 netFailEx).outcome
      = .error (.token "Token refresh rate limit exceeded. Please wait before retrying.")
    ∧ (refreshAccessToken cfgEx [(REFRESH_TOKEN, "rt-1")] 0 500 netFailEx).tokenPosts = []
    ∧ (refreshAccessToken cfgEx [(REFRESH_TOKEN, "rt-1")] 0 500 netFailEx).lastRefreshAttempt = 0
    ∧ (refreshAccessToken cfgEx [(REFRESH_TOKEN, "rt-1")] 0 (0 + REFRESH_COOLDOWN) netFailEx).lastRefreshAttempt
      = 0 + REFRESH_COOLDOWN :=
  refreshAccessToken_rate_limited_rejects_without_network cfgEx [(REFRESH_TOKEN, "rt-1")]
    0 500 netFailEx (by decide)

/-! ## C5: interceptor allow-list -/

/-- C5: the request interceptor leaves a request to a non-allow-listed endpoint
untouched — no `Authorization` header is attached and the outgoing headers are
identical for every storage content, token or no token. -/
theorem requestInterceptor_non_allowlisted_passthrough
    (url : Option String) (store : Store) (headers : List (String × String))
    (h : shouldAttachAuth url = false) :
    requestInterceptor url store headers = headers := by
  simp [requestInterceptor, h]

/-- Witness for C5: a non-allow-listed URL with a valid stored token passes
through unchanged. -/
theorem requestInterceptor_non_allowlisted_witness :
    requestInterceptor (some "https://auth.example.com/api/other/") [(ACCESS_TOKEN, "tok-1")] []
      = [] :=
  requestInterceptor_non_allowlisted_passthrough (some "https://auth.example.com/api/other/")
    [(ACCESS_TOKEN, "tok-1")] [] (by decide)

/-! ## C10: `storeTokens` without a refresh token -/

/-- C10: a `storeTokens` call whose token response has no `refresh_token`
leaves the stored refresh token unchanged (so `getRefreshToken()` still returns
it), while the access-token, token-type and expiry keys are overwritten. -/
theorem storeTokens_no_refresh_token_frame
    (tokens : TokenResponse) (store : Store) (now : Int)
    (h : tokens.refresh_token = none) :
    getRefreshToken (storeTokens tokens store now) = getRefreshToken store
    ∧ getItem (storeTokens tokens store now) ACCESS_TOKEN = some tokens.access_token
    ∧ getItem (storeTokens tokens store now) TOKEN_TYPE = some tokens.token_type
    ∧ getItem (storeTokens tokens store now) EXPIRES_AT
      = some (intToString (now + tokens.expires_in * 1000)) := by
  have e1 : storeTokens tokens store now
      = setItem (setItem (setItem store ACCESS_TOKEN tokens.access_token)
          TOKEN_TYPE tokens.token_type)
          EXPIRES_AT (intToString (now + tokens.expires_in * 1000)) := by
    rw [storeTokens, h]
    rfl
  refine ⟨?_, ?_, ?_, ?_⟩
  · rw [getRefreshToken, getRefreshToken, e1,
      getItem_setItem_ne _ _ _ _ (by decide),
      getItem_setItem_ne _ _ _ _ (by decide),
      getItem_setItem_ne _ _ _ _ (by decide)]
  · rw [e1, getItem_setItem_ne _ _ _ _ (by decide),
      getItem_setItem_ne _ _ _ _ (by decide), getItem_setItem_self]
  · rw [e1, getItem_setItem_ne _ _ _ _ (by decide), getItem_setItem_self]
  · rw [e1, getItem_setItem_self]

/-- Witness for C10: storing `tokensNoRefreshEx` over a store holding `rt-0`. -/
theorem storeTokens_no_refresh_token_frame_witness :
    getRefreshToken (storeTokens tokensNoRefreshEx [(REFRESH_TOKEN, "rt-0")] 0)
      = getRefreshToken [(REFRESH_TOKEN, "rt-0")]
    ∧ getItem (storeTokens tokensNoRefreshEx [(REFRESH_TOKEN, "rt-0")] 0) ACCESS_TOKEN
      = some tokensNoRefreshEx.access_token
    ∧ getItem (storeTokens tokensNoRefreshEx [(REFRESH_TOKEN, "rt-0")] 0) TOKEN_TYPE
      = some tokensNoRefreshEx.token_type
    ∧ getItem (storeTokens tokensNoRefreshEx [(REFRESH_TOKEN, "rt-0")] 0) EXPIRES_AT
      = some (intToString (0 + tokensNoRefreshEx.expires_in * 1000)) :=
  storeTokens_no_refresh_token_frame tokensNoRefreshEx [(REFRESH_TOKEN, "rt-0")] 0 (by decide)

/-! ## Shared helper lemmas -/

theorem natToString_ne_empty (n : Nat) : natToString n ≠ "" := by
  intro h
  have h2 : (natToRevDigits n).reverse = ([] : List Char) := congrArg String.data h
  rw [List.reverse_eq_nil_iff] at h2
  exact natToRevDigits_ne_nil n h2

theorem intToString_ne_empty (i : Int) : intToString i ≠ "" := by
  rw [intToString]
  split
  · intro h
    have h2 : '-' :: (natToString i.natAbs).data = ([] : List Char) := by
      have hdata : ("-" ++ natToString i.natAbs).data
          = '-' :: (natToString i.natAbs).data := by
        simp [natToString, String.data_append]
      rw [← hdata]
      exact congrArg String.data h
    exact List.cons_ne_nil _ _ h2
  · exact natToString_ne_empty i.natAbs

theorem truthy_intToString (i : Int) :
    truthy (some (intToString i)) = some (intToString i) := by
  simp [truthy, intToString_ne_empty i]

theorem cleanupOAuthState_removes (s : Store) :
    getItem (cleanupOAuthState s) OAUTH_STATE = none
    ∧ getItem (cleanupOAuthState s) PKCE_VERIFIER = none := by
  constructor
  · rw [cleanupOAuthState, getItem_removeItem_ne _ _ _ (by decide), getItem_removeItem_self]
  · rw [cleanupOAuthState, getItem_removeItem_self]

/-- `getCurrentUser` only ever writes the `user` and `user_cached_at` keys. -/
theorem getCurrentUser_store_frame (forceRefresh : Bool) (store : Store) (now : Int)
    (userNet : Except AKError String) (k : String)
    (h1 : k ≠ USER_KEY) (h2 : k ≠ USER_CACHED_AT) :
    getItem (getCurrentUser forceRefresh store now userNet).store k = getItem store k := by
  cases hc : cachedUser forceRefresh store now with
  | some cu => simp [getCurrentUser, hc]
  | none =>
    cases userNet with
    | error e => simp [getCurrentUser, hc]
    | ok u =>
      simp [getCurrentUser, hc, getItem_setItem_ne _ _ _ _ h1,
        getItem_setItem_ne _ _ _ _ h2]

/-! ## C9: the persisted token record and `getTokens` (corrected) -/

/-- C9 counterexample: after storing a token response that grants only the
`read` scope, `getTokens()` reports the configured scopes, not the granted
ones — the granted scope set is not persisted and not reconstructed. -/
theorem getTokens_scopes_not_granted_cex :
    (getTokens cfgEx (storeTokens tokensEx [] 0)).map TokenMeta.scopes
      = some ["read", "write", "profile", "email"]
    ∧ tokensEx.scope = "read"
    ∧ (["read", "write", "profile", "email"] : List String) ≠ ["read"] := by
  refine ⟨?_, rfl, by decide⟩
  rfl

/-- C9 (amended): after `storeTokens`, `getTokens()` reconstructs the access
token, token type, absolute expiry `now + expires_in * 1000` and the refresh
token (the response's, when it is truthy, or else the previously stored one);
its `scopes` field is the configured `config.scopes`, not the granted scope
set, which is never persisted. -/
theorem getTokens_after_storeTokens
    (cfg : Config) (tokens : TokenResponse) (store : Store) (now : Int)
    (hat : tokens.access_token ≠ "") (htt : tokens.token_type ≠ "") :
    getTokens cfg (storeTokens tokens store now)
      = some { accessToken := tokens.access_token
               refreshToken := truthy
                 ((truthy tokens.refresh_token).or (getItem store REFRESH_TOKEN))
               tokenType := tokens.token_type
               expiresAt := some (now + tokens.expires_in * 1000)
               scopes := cfg.scopes } := by
  cases htr : truthy tokens.refresh_token with
  | none =>
    have e1 : storeTokens tokens store now
        = setItem (setItem (setItem store ACCESS_TOKEN tokens.access_token)
            TOKEN_TYPE tokens.token_type)
            EXPIRES_AT (intToString (now + tokens.expires_in * 1000)) := by
      rw [storeTokens, htr]
    rw [getTokens, getAccessToken, e1]
    rw [getItem_setItem_ne _ _ _ _ (by decide), getItem_setItem_ne _ _ _ _ (by decide),
      getItem_setItem_self]
    simp only [truthy, if_neg hat]
    rw [getItem_setItem_ne _ _ _ _ (by decide), getItem_setItem_self]
    rw [getRefreshToken, getItem_setItem_ne _ _ _ _ (by decide),
      getItem_setItem_ne _ _ _ _ (by decide), getItem_setItem_ne _ _ _ _ (by decide)]
    rw [getItem_setItem_self]
    simp only [Option.or]
    simp [truthy, htt]
    rw [if_neg (intToString_ne_empty _)]
    exact jsParseInt_intToString _
  | some rt =>
    have e1 : storeTokens tokens store now
        = setItem (setItem (setItem (setItem store ACCESS_TOKEN tokens.access_token)
            TOKEN_TYPE tokens.token_type) REFRESH_TOKEN rt)
            EXPIRES_AT (intToString (now + tokens.expires_in * 1000)) := by
      rw [storeTokens, htr]
    rw [getTokens, getAccessToken, e1]
    rw [getItem_setItem_ne _ _ _ _ (by decide), getItem_setItem_ne _ _ _ _ (by decide),
      getItem_setItem_ne _ _ _ _ (by decide), getItem_setItem_self]
    simp only [truthy, if_neg hat]
    rw [getItem_setItem_ne _ _ _ _ (by decide), getItem_setItem_ne _ _ _ _ (by decide),
      getItem_setItem_self]
    rw [getRefreshToken, getItem_setItem_ne _ _ _ _ (by decide), getItem_setItem_self]
    rw [getItem_setItem_self]
    simp only [Option.or]
    simp [truthy, htt]
    rw [if_neg (intToString_ne_empty _)]
    exact jsParseInt_intToString _

/-- Witness for the amended C9 at `tokensEx` over an empty store. -/
theorem getTokens_after_storeTokens_witness :
    getTokens cfgEx (storeTokens tokensEx [] 5)
      = some { accessToken := tokensEx.access_token
               refreshToken := truthy
                 ((truthy tokensEx.refresh_token).or (getItem [] REFRESH_TOKEN))
               tokenType := tokensEx.token_type
               expiresAt := some (5 + tokensEx.expires_in * 1000)
               scopes := cfgEx.scopes } :=
  getTokens_after_storeTokens cfgEx tokensEx [] 5 (by decide) (by decide)

/-! ## C4: pending-transaction cleanup in `handleCallback` (corrected) -/

/-- C4 counterexample: a failing `handleCallback` does **not** remove the
pending-transaction keys. Both on a CSRF mismatch and on a token-endpoint
failure, `oauth_state` and `pkce_verifier` are still in storage when the
rejection reaches the caller. -/
theorem handleCallback_failure_keeps_pending_keys_cex :
    (handleCallback cfgEx "code-1" "state-b" [(OAUTH_STATE, "state-a"), (PKCE_VERIFIER, "ver-1")]
        0 netFailEx userFailEx).outcome
      = .error (.authentication "Invalid state parameter - CSRF check failed")
    ∧ getItem (handleCallback cfgEx "code-1" "state-b" [(OAUTH_STATE, "state-a"), (PKCE_VERIFIER, "ver-1")]
        0 netFailEx userFailEx).store OAUTH_STATE = some "state-a"
    ∧ getItem (handleCallback cfgEx "code-1" "state-b" [(OAUTH_STATE, "state-a"), (PKCE_VERIFIER, "ver-1")]
        0 netFailEx userFailEx).store PKCE_VERIFIER = some "ver-1"
    ∧ (handleCallback cfgEx "code-1" "state-a" [(OAUTH_STATE, "state-a"), (PKCE_VERIFIER, "ver-1")]
        0 netFailEx userFailEx).outcome
      = .error (.network "Network request failed" none)
    ∧ getItem (handleCallback cfgEx "code-1" "state-a" [(OAUTH_STATE, "state-a"), (PKCE_VERIFIER, "ver-1")]
        0 netFailEx userFailEx).store OAUTH_STATE = some "state-a"
    ∧ getItem (handleCallback cfgEx "code-1" "state-a" [(OAUTH_STATE, "state-a"), (PKCE_VERIFIER, "ver-1")]
        0 netFailEx userFailEx).store PKCE_VERIFIER = some "ver-1" := by
  decide

/-- On a successful token exchange, the store of `handleCallback` is the store
of the inner `getCurrentUser` run on the cleaned-up storage, whether or not
the profile fetch succeeds. -/
theorem handleCallback_success_store
    (cfg : Config) (code state : String) (store : Store) (now : Int)
    (tokenNet : List (String × String) → Except AKError TokenResponse)
    (userNet : Except AKError String) (tokens : TokenResponse)
    (h1 : getItem store OAUTH_STATE = some state)
    (h2 : tokenNet (callbackBody cfg code
        (if cfg.pkce then truthy (getItem store PKCE_VERIFIER) else none)) = .ok tokens) :
    (handleCallback cfg code state store now tokenNet userNet).store
      = (getCurrentUser false
          (removeItem (removeItem (storeTokens tokens store now) OAUTH_STATE) PKCE_VERIFIER)
          now userNet).store := by
  have hne : ¬ (getItem store OAUTH_STATE ≠ some state) := by simp [h1]
  simp only [handleCallback, if_neg hne, h2]
  cases (getCurrentUser false
      (removeItem (removeItem (storeTokens tokens store now) OAUTH_STATE) PKCE_VERIFIER)
      now userNet).outcome <;> rfl

/-- C4 (amended): `handleCallback` deletes the pending CSRF state and PKCE
verifier exactly on a successful token exchange (even if the subsequent profile
fetch fails); an invocation that fails the CSRF check or whose token request
fails leaves the storage unchanged — cleanup on those failures is performed
only by `login()`'s catch path, not by `handleCallback` itself. -/
theorem handleCallback_cleanup_on_success_only
    (cfg : Config) (code state : String) (store : Store) (now : Int)
    (tokenNet : List (String × String) → Except AKError TokenResponse)
    (userNet : Except AKError String) (f : AKError) (tokens : TokenResponse) :
    (getItem store OAUTH_STATE ≠ some state →
      (handleCallback cfg code state store now tokenNet userNet).store = store)
    ∧ (getItem store OAUTH_STATE = some state →
       tokenNet (callbackBody cfg code
         (if cfg.pkce then truthy (getItem store PKCE_VERIFIER) else none)) = .error f →
       (handleCallback cfg code state store now tokenNet userNet).store = store)
    ∧ (getItem store OAUTH_STATE = some state →
       tokenNet (callbackBody cfg code
         (if cfg.pkce then truthy (getItem store PKCE_VERIFIER) else none)) = .ok tokens →
       getItem (handleCallback cfg code state store now tokenNet userNet).store OAUTH_STATE = none
       ∧ getItem (handleCallback cfg code state store now tokenNet userNet).store PKCE_VERIFIER = none) := by
  refine ⟨?_, ?_, ?_⟩
  · intro h
    simp [handleCallback, h]
  · intro h1 h2
    have hne : ¬ (getItem store OAUTH_STATE ≠ some state) := by simp [h1]
    simp only [handleCallback, if_neg hne, h2]
  · intro h1 h2
    rw [handleCallback_success_store cfg code state store now tokenNet userNet tokens h1 h2]
    constructor
    · rw [getCurrentUser_store_frame _ _ _ _ _ (by decide) (by decide),
        getItem_removeItem_ne _ _ _ (by decide), getItem_removeItem_self]
    · rw [getCurrentUser_store_frame _ _ _ _ _ (by decide) (by decide),
        getItem_removeItem_self]

/-- Witness for the amended C4: a CSRF mismatch and a token failure leave the
two pending keys untouched; a successful exchange removes both. -/
theorem handleCallback_cleanup_on_success_only_witness :
    (handleCallback cfgEx "code-1" "state-b" [(OAUTH_STATE, "state-a"), (PKCE_VERIFIER, "ver-1")]
        0 netFailEx userFailEx).store = [(OAUTH_STATE, "state-a"), (PKCE_VERIFIER, "ver-1")]
    ∧ (handleCallback cfgEx "code-1" "state-a" [(OAUTH_STATE, "state-a"), (PKCE_VERIFIER, "ver-1")]
        0 netFailEx userFailEx).store = [(OAUTH_STATE, "state-a"), (PKCE_VERIFIER, "ver-1")]
    ∧ (getItem (handleCallback cfgEx "code-1" "state-a" [(OAUTH_STATE, "state-a"), (PKCE_VERIFIER, "ver-1")]
          0 netOkEx userOkEx).store OAUTH_STATE = none
       ∧ getItem (handleCallback cfgEx "code-1" "state-a" [(OAUTH_STATE, "state-a"), (PKCE_VERIFIER, "ver-1")]
          0 netOkEx userOkEx).store PKCE_VERIFIER = none) :=
  ⟨(handleCallback_cleanup_on_success_only cfgEx "code-1" "state-b"
      [(OAUTH_STATE, "state-a"), (PKCE_VERIFIER, "ver-1")] 0 netFailEx userFailEx
      (.network "Network request failed" none) tokensEx).1 (by decide),
   (handleCallback_cleanup_on_success_only cfgEx "code-1" "state-a"
      [(OAUTH_STATE, "state-a"), (PKCE_VERIFIER, "ver-1")] 0 netFailEx userFailEx
      (.network "Network request failed" none) tokensEx).2.1 (by decide) (by decide),
   (handleCallback_cleanup_on_success_only cfgEx "code-1" "state-a"
      [(OAUTH_STATE, "state-a"), (PKCE_VERIFIER, "ver-1")] 0 netOkEx userOkEx
      (.network "Network request failed" none) tokensEx).2.2 (by decide) (by decide)⟩

/-! ## C3: `login()` rejection cleanup -/

theorem loginCatch_spec (e : AKError) (s : Store)
    (tp : List (List (String × String))) (ug : Nat) (evs : List Ev) :
    (loginCatch e s tp ug evs).outcome = .error e
    ∧ getItem (loginCatch e s tp ug evs).store OAUTH_STATE = none
    ∧ getItem (loginCatch e s tp ug evs).store PKCE_VERIFIER = none
    ∧ Ev.auth_error ∈ (loginCatch e s tp ug evs).events := by
  refine ⟨rfl, ?_, ?_, ?_⟩
  · exact (cleanupOAuthState_removes s).1
  · exact (cleanupOAuthState_removes s).2
  · simp [loginCatch]

/-- C3: every `login()` call that rejects — browser cancel, provider error
parameter, missing code or state, CSRF mismatch, or token-exchange failure —
leaves neither the CSRF state nor the PKCE verifier in storage and has emitted
`auth_error`; a cancel outcome rejects with the Authentication error
`"Login cancelled by user"`. -/
theorem login_rejection_cleans_and_emits
    (cfg : Config) (store0 : Store) (genState genVerifier : String)
    (browser : BrowserOutcome) (now : Int)
    (tokenNet : List (String × String) → Except AKError TokenResponse)
    (userNet : Except AKError String) (e : AKError) :
    ((login cfg store0 genState genVerifier browser now tokenNet userNet).outcome = .error e →
      getItem (login cfg store0 genState genVerifier browser now tokenNet userNet).store
        OAUTH_STATE = none
      ∧ getItem (login cfg store0 genState genVerifier browser now tokenNet userNet).store
        PKCE_VERIFIER = none
      ∧ Ev.auth_error ∈ (login cfg store0 genState genVerifier browser now tokenNet userNet).events)
    ∧ (browser = .cancel →
      (login cfg store0 genState genVerifier browser now tokenNet userNet).outcome
        = .error (.authentication "Login cancelled by user")) := by
  cases browser with
  | cancel =>
    refine ⟨fun _ => ?_, fun _ => ?_⟩
    · exact ⟨(loginCatch_spec _ _ _ _ _).2.1, (loginCatch_spec _ _ _ _ _).2.2.1,
        (loginCatch_spec _ _ _ _ _).2.2.2⟩
    · exact (loginCatch_spec _ _ _ _ _).1
  | dismiss =>
    refine ⟨fun h => ?_, fun h => ?_⟩
    · simp [login] at h
    · simp at h
  | success code retState err =>
    refine ⟨?_, fun h => by simp at h⟩
    intro h
    simp only [login] at h ⊢
    cases he : truthy err with
    | some eo =>
      simp only [he]
      exact ⟨(loginCatch_spec _ _ _ _ _).2.1, (loginCatch_spec _ _ _ _ _).2.2.1,
        (loginCatch_spec _ _ _ _ _).2.2.2⟩
    | none =>
      simp only [he] at h ⊢
      cases hc : truthy code with
      | none =>
        simp only [hc]
        exact ⟨(loginCatch_spec _ _ _ _ _).2.1, (loginCatch_spec _ _ _ _ _).2.2.1,
          (loginCatch_spec _ _ _ _ _).2.2.2⟩
      | some c =>
        cases hr : truthy retState with
        | none =>
          simp only [hc, hr]
          exact ⟨(loginCatch_spec _ _ _ _ _).2.1, (loginCatch_spec _ _ _ _ _).2.2.1,
            (loginCatch_spec _ _ _ _ _).2.2.2⟩
        | some rs =>
          simp only [hc, hr] at h ⊢
          set s2 : Store :=
            (if cfg.pkce then setItem (setItem store0 OAUTH_STATE genState) PKCE_VERIFIER genVerifier
             else setItem store0 OAUTH_STATE genState) with hs2
          by_cases hsne : some rs ≠ getItem s2 OAUTH_STATE
          · rw [if_pos hsne]
            exact ⟨(loginCatch_spec _ _ _ _ _).2.1, (loginCatch_spec _ _ _ _ _).2.2.1,
              (loginCatch_spec _ _ _ _ _).2.2.2⟩
          · rw [if_neg hsne] at h ⊢
            cases hcb : (handleCallback cfg c rs s2 now tokenNet userNet).outcome with
            | ok v =>
              rw [hcb] at h
              exact Except.noConfusion (h : Except.ok () = Except.error e)
            | error ecb =>
              exact ⟨(loginCatch_spec _ _ _ _ _).2.1, (loginCatch_spec _ _ _ _ _).2.2.1,
                (loginCatch_spec _ _ _ _ _).2.2.2⟩

/-- Witness for C3: a cancelled browser session. -/
theorem login_rejection_witness :
    (getItem (login cfgEx [] "st-1" "ver-1" .cancel 0 netFailEx userFailEx).store OAUTH_STATE = none
     ∧ getItem (login cfgEx [] "st-1" "ver-1" .cancel 0 netFailEx userFailEx).store PKCE_VERIFIER = none
     ∧ Ev.auth_error ∈ (login cfgEx [] "st-1" "ver-1" .cancel 0 netFailEx userFailEx).events)
    ∧ (login cfgEx [] "st-1" "ver-1" .cancel 0 netFailEx userFailEx).outcome
      = .error (.authentication "Login cancelled by user") :=
  ⟨(login_rejection_cleans_and_emits cfgEx [] "st-1" "ver-1" .cancel 0 netFailEx userFailEx
      (.authentication "Login cancelled by user")).1 (by decide),
   (login_rejection_cleans_and_emits cfgEx [] "st-1" "ver-1" .cancel 0 netFailEx userFailEx
      (.authentication "Login cancelled by user")).2 rfl⟩

/-! ## C6: `isAuthenticated()` -/

theorem refreshAccessToken_no_token_fails
    (cfg : Config) (store : Store) (last now : Int)
    (tokenNet : List (String × String) → Except AKError TokenResponse)
    (h : truthy (getRefreshToken store) = none) :
    (refreshAccessToken cfg store last now tokenNet).outcome.isOk = false := by
  rw [refreshAccessToken]
  by_cases hcool : now - last < REFRESH_COOLDOWN
  · rw [if_pos hcool]
    rfl
  · rw [if_neg hcool, h]
    rfl

/-- C6: `isAuthenticated()` returns `false` without a stored access token; with
a token and no stored expiry, or an expiry still in the future, it returns
`true` without attempting a refresh; with a passed expiry it invokes exactly one
`refreshAccessToken()` and returns exactly its success, swallowing the refresh
error — in particular it returns `false` when no refresh token is stored. -/
theorem isAuthenticated_contract
    (cfg : Config) (store : Store) (last now : Int)
    (tokenNet : List (String × String) → Except AKError TokenResponse)
    (tok es : String) (expiry : Int) :
    (truthy (getAccessToken store) = none →
      (isAuthenticated cfg store last now tokenNet).result = false
      ∧ (isAuthenticated cfg store last now tokenNet).refreshCalls = 0)
    ∧ (truthy (getAccessToken store) = some tok →
       truthy (getItem store EXPIRES_AT) = none →
       (isAuthenticated cfg store last now tokenNet).result = true
       ∧ (isAuthenticated cfg store last now tokenNet).refreshCalls = 0)
    ∧ (truthy (getAccessToken store) = some tok →
       truthy (getItem store EXPIRES_AT) = some es →
       jsParseInt es = some expiry → now < expiry →
       (isAuthenticated cfg store last now tokenNet).result = true
       ∧ (isAuthenticated cfg store last now tokenNet).refreshCalls = 0)
    ∧ (truthy (getAccessToken store) = some tok →
       truthy (getItem store EXPIRES_AT) = some es →
       jsParseInt es = some expiry → now ≥ expiry →
       (isAuthenticated cfg store last now tokenNet).refreshCalls = 1
       ∧ (isAuthenticated cfg store last now tokenNet).result
         = (refreshAccessToken cfg store last now tokenNet).outcome.isOk)
    ∧ (truthy (getAccessToken store) = some tok →
       truthy (getItem store EXPIRES_AT) = some es →
       jsParseInt es = some expiry → now ≥ expiry →
       truthy (getRefreshToken store) = none →
       (isAuthenticated cfg store last now tokenNet).result = false) := by
  refine ⟨?_, ?_, ?_, ?_, ?_⟩
  · intro h1
    simp only [isAuthenticated, h1]
    exact ⟨by trivial, by trivial⟩
  · intro h1 h2
    simp only [isAuthenticated, h1, h2]
    exact ⟨by trivial, by trivial⟩
  · intro h1 h2 h3 h4
    simp only [isAuthenticated, h1, h2, h3]
    rw [if_neg (show ¬ now ≥ expiry by omega)]
    exact ⟨by trivial, by trivial⟩
  · intro h1 h2 h3 h4
    simp only [isAuthenticated, h1, h2, h3]
    rw [if_pos h4]
    exact ⟨by trivial, by trivial⟩
  · intro h1 h2 h3 h4 h5
    simp only [isAuthenticated, h1, h2, h3]
    rw [if_pos h4]
    exact refreshAccessToken_no_token_fails cfg store last now tokenNet h5

/-- Witness for C6: the five cases at concrete stores and clocks. -/
theorem isAuthenticated_contract_witness :
    ((isAuthenticated cfgEx [] 0 0 netFailEx).result = false
      ∧ (isAuthenticated cfgEx [] 0 0 netFailEx).refreshCalls = 0)
    ∧ ((isAuthenticated cfgEx [(ACCESS_TOKEN, "at-1")] 0 0 netFailEx).result = true
      ∧ (isAuthenticated cfgEx [(ACCESS_TOKEN, "at-1")] 0 0 netFailEx).refreshCalls = 0)
    ∧ ((isAuthenticated cfgEx [(ACCESS_TOKEN, "at-1"), (EXPIRES_AT, "1000")] 0 200 netFailEx).result = true
      ∧ (isAuthenticated cfgEx [(ACCESS_TOKEN, "at-1"), (EXPIRES_AT, "1000")] 0 200 netFailEx).refreshCalls = 0)
    ∧ ((isAuthenticated cfgEx [(ACCESS_TOKEN, "at-1"), (EXPIRES_AT, "1000"), (REFRESH_TOKEN, "rt-1")]
          (-100000) 2000 netOkEx).refreshCalls = 1
      ∧ (isAuthenticated cfgEx [(ACCESS_TOKEN, "at-1"), (EXPIRES_AT, "1000"), (REFRESH_TOKEN, "rt-1")]
          (-100000) 2000 netOkEx).result
        = (refreshAccessToken cfgEx [(ACCESS_TOKEN, "at-1"), (EXPIRES_AT, "1000"), (REFRESH_TOKEN, "rt-1")]
            (-100000) 2000 netOkEx).outcome.isOk)
    ∧ (isAuthenticated cfgEx [(ACCESS_TOKEN, "at-1"), (EXPIRES_AT, "100")] (-100000) 200 netFailEx).result
      = false :=
  ⟨(isAuthenticated_contract cfgEx [] 0 0 netFailEx "at-1" "0" 0).1 (by decide),
   (isAuthenticated_contract cfgEx [(ACCESS_TOKEN, "at-1")] 0 0 netFailEx "at-1" "0" 0).2.1
     (by decide) (by decide),
   (isAuthenticated_contract cfgEx [(ACCESS_TOKEN, "at-1"), (EXPIRES_AT, "1000")] 0 200 netFailEx
      "at-1" "1000" 1000).2.2.1 (by decide) (by decide) (by decide) (by decide),
   (isAuthenticated_contract cfgEx [(ACCESS_TOKEN, "at-1"), (EXPIRES_AT, "1000"), (REFRESH_TOKEN, "rt-1")]
      (-100000) 2000 netOkEx "at-1" "1000" 1000).2.2.2.1
     (by decide) (by decide) (by decide) (by decide),
   (isAuthenticated_contract cfgEx [(ACCESS_TOKEN, "at-1"), (EXPIRES_AT, "100")]
      (-100000) 200 netFailEx "at-1" "100" 100).2.2.2.2
     (by decide) (by decide) (by decide) (by decide) (by decide)⟩

/-! ## C7: `getCurrentUser()` and the profile cache -/

theorem cachedUser_fresh (store : Store) (now : Int) (cu ca : String) (t : Int)
    (h1 : truthy (getItem store USER_KEY) = some cu)
    (h2 : truthy (getItem store USER_CACHED_AT) = some ca)
    (h3 : jsParseInt ca = some t)
    (h4 : now - t < USER_CACHE_DURATION) :
    cachedUser false store now = some cu := by
  simp [cachedUser, h1, h2, h3, h4]

theorem cachedUser_of_no_user (forceRefresh : Bool) (store : Store) (now : Int)
    (h1 : truthy (getItem store USER_KEY) = none) :
    cachedUser forceRefresh store now = none := by
  cases forceRefresh
  · cases hca : truthy (getItem store USER_CACHED_AT) <;> simp [cachedUser, h1, hca]
  · simp [cachedUser]

theorem cachedUser_stale (store : Store) (now : Int) (cu ca : String) (t : Int)
    (h1 : truthy (getItem store USER_KEY) = some cu)
    (h2 : truthy (getItem store USER_CACHED_AT) = some ca)
    (h3 : jsParseInt ca = some t)
    (h4 : ¬ (now - t < USER_CACHE_DURATION)) :
    cachedUser false store now = none := by
  simp [cachedUser, h1, h2, h3, h4]

theorem cachedUser_force (store : Store) (now : Int) :
    cachedUser true store now = none := by
  simp [cachedUser]

/-- C7: `getCurrentUser` returns the cached profile with no fetch while the
cache is younger than 5 minutes; with the cache missing, stale, or under
`forceRefresh`, it performs exactly one fetch, overwrites the cached profile
and timestamp on success, and propagates a (translated) failure without
falling back to the stale cache; hence a second call within the window after a
successful fetch performs no fetch and returns the same profile. -/
theorem getCurrentUser_contract
    (store : Store) (now now2 : Int) (userNet userNet2 : Except AKError String)
    (cu ca u : String) (t : Int) (f : AKError) :
    (truthy (getItem store USER_KEY) = some cu →
     truthy (getItem store USER_CACHED_AT) = some ca →
     jsParseInt ca = some t → now - t < USER_CACHE_DURATION →
      getCurrentUser false store now userNet
        = { outcome := .ok cu, store := store, userGets := 0 })
    ∧ (truthy (getItem store USER_KEY) = none → userNet = .ok u →
      getCurrentUser false store now userNet
        = { outcome := .ok u
            store := setItem (setItem store USER_KEY u) USER_CACHED_AT (intToString now)
            userGets := 1 })
    ∧ (userNet = .ok u →
      getCurrentUser true store now userNet
        = { outcome := .ok u
            store := setItem (setItem store USER_KEY u) USER_CACHED_AT (intToString now)
            userGets := 1 })
    ∧ (truthy (getItem store USER_KEY) = some cu →
       truthy (getItem store USER_CACHED_AT) = some ca →
       jsParseInt ca = some t → ¬ (now - t < USER_CACHE_DURATION) → userNet = .error f →
      getCurrentUser false store now userNet
        = { outcome := .error f, store := store, userGets := 1 })
    ∧ (userNet = .error f →
      getCurrentUser true store now userNet
        = { outcome := .error f, store := store, userGets := 1 })
    ∧ (truthy (getItem store USER_KEY) = none → userNet = .ok u → u ≠ "" →
       now2 - now < USER_CACHE_DURATION →
      getCurrentUser false ((getCurrentUser false store now userNet).store) now2 userNet2
        = { outcome := .ok u
            store := (getCurrentUser false store now userNet).store
            userGets := 0 }) := by
  refine ⟨?_, ?_, ?_, ?_, ?_, ?_⟩
  · intro h1 h2 h3 h4
    rw [getCurrentUser.eq_def, cachedUser_fresh store now cu ca t h1 h2 h3 h4]
  · intro h1 h2
    rw [getCurrentUser.eq_def, cachedUser_of_no_user false store now h1, h2]
  · intro h2
    rw [getCurrentUser.eq_def, cachedUser_force store now, h2]
  · intro h1 h2 h3 h4 h5
    rw [getCurrentUser.eq_def, cachedUser_stale store now cu ca t h1 h2 h3 h4, h5]
    rfl
  · intro h5
    rw [getCurrentUser.eq_def, cachedUser_force store now, h5]
    rfl
  · intro h1 h2 hu hnow
    have hfirst : (getCurrentUser false store now userNet).store
        = setItem (setItem store USER_KEY u) USER_CACHED_AT (intToString now) := by
      rw [getCurrentUser.eq_def, cachedUser_of_no_user false store now h1, h2]
    rw [hfirst]
    have hu1 : truthy (getItem (setItem (setItem store USER_KEY u) USER_CACHED_AT
        (intToString now)) USER_KEY) = some u := by
      rw [getItem_setItem_ne _ _ _ _ (by decide), getItem_setItem_self]
      simp [truthy, hu]
    have hu2 : truthy (getItem (setItem (setItem store USER_KEY u) USER_CACHED_AT
        (intToString now)) USER_CACHED_AT) = some (intToString now) := by
      rw [getItem_setItem_self]
      exact truthy_intToString now
    rw [getCurrentUser.eq_def, cachedUser_fresh _ now2 u (intToString now) now hu1 hu2
      (jsParseInt_intToString now) hnow]

/-- Witness for C7: a fetch-then-cache-hit run and the failure cases at
concrete stores and clocks. -/
theorem getCurrentUser_contract_witness :
    (getCurrentUser false [(USER_KEY, "profile-0"), (USER_CACHED_AT, "100")] 200 userFailEx
      = { outcome := .ok "profile-0"
          store := [(USER_KEY, "profile-0"), (USER_CACHED_AT, "100")], userGets := 0 })
    ∧ (getCurrentUser false [] 0 userOkEx
      = { outcome := .ok "profile-1"
          store := setItem (setItem [] USER_KEY "profile-1") USER_CACHED_AT (intToString 0)
          userGets := 1 })
    ∧ (getCurrentUser true [(USER_KEY, "profile-0"), (USER_CACHED_AT, "100")] 200 userOkEx
      = { outcome := .ok "profile-1"
          store := setItem (setItem [(USER_KEY, "profile-0"), (USER_CACHED_AT, "100")]
            USER_KEY "profile-1") USER_CACHED_AT (intToString 200)
          userGets := 1 })
    ∧ (getCurrentUser false [(USER_KEY, "profile-0"), (USER_CACHED_AT, "100")] 9999999 userFailEx
      = { outcome := .error (.network "Network request failed" none)
          store := [(USER_KEY, "profile-0"), (USER_CACHED_AT, "100")], userGets := 1 })
    ∧ (getCurrentUser true [(USER_KEY, "profile-0"), (USER_CACHED_AT, "100")] 200 userFailEx
      = { outcome := .error (.network "Network request failed" none)
          store := [(USER_KEY, "profile-0"), (USER_CACHED_AT, "100")], userGets := 1 })
    ∧ (getCurrentUser false ((getCurrentUser false [] 0 userOkEx).store) 1000 userFailEx
      = { outcome := .ok "profile-1"
          store := (getCurrentUser false [] 0 userOkEx).store
          userGets := 0 }) :=

  ⟨(getCurrentUser_contract [(USER_KEY, "profile-0"), (USER_CACHED_AT, "100")] 200 0
      userFailEx userFailEx "profile-0" "100" "profile-1" 100
      (.network "Network request failed" none)).1 (by decide) (by decide) (by decide) (by decide),
   (getCurrentUser_contract [] 0 0 userOkEx userFailEx "profile-0" "100" "profile-1" 100
      (.network "Network request failed" none)).2.1 (by decide) (by decide),
   (getCurrentUser_contract [(USER_KEY, "profile-0"), (USER_CACHED_AT, "100")] 200 0
      userOkEx userFailEx "profile-0" "100" "profile-1" 100
      (.network "Network request failed" none)).2.2.1 (by decide),
   (getCurrentUser_contract [(USER_KEY, "profile-0"), (USER_CACHED_AT, "100")] 9999999 0
      userFailEx userFailEx "profile-0" "100" "profile-1" 100
      (.network "Network request failed" none)).2.2.2.1
     (by decide) (by decide) (by decide) (by decide) (by decide),
   (getCurrentUser_contract [(USER_KEY, "profile-0"), (USER_CACHED_AT, "100")] 200 0
      userFailEx userFailEx "profile-0" "100" "profile-1" 100
      (.network "Network request failed" none)).2.2.2.2.1 (by decide),
   (getCurrentUser_contract [] 0 1000 userOkEx userFailEx "profile-0" "100" "profile-1" 100
      (.network "Network request failed" none)).2.2.2.2.2
     (by decide) (by decide) (by decide) (by decide)⟩

/-! ## PKCE challenge generation (`src/utils/pkce.ts`)

`generateCodeChallenge` hashes with the external expo-crypto SHA-256 primitive
(Base64 output), passed here as the `digest` parameter. The development records
what is provable without fixing the digest: the function is pure in its inputs,
the `plain` method is the identity, and the `S256` challenge differs from every
verifier whose length differs from the encoded digest's. Whether
`base64UrlEncode ∘ SHA-256` has a fixed point among 43-character strings — the
missing piece for "the S256 challenge always differs from the verifier" — is an
open question about SHA-256 itself. -/

/-- `base64UrlEncode(str)`: `+` → `-`, `/` → `_`, and `=` removed. -/
def base64UrlEncode (s : String) : String :=
  ⟨(s.data.map (fun c => if c = '+' then '-' else if c = '/' then '_' else c)).filter
    (fun c => c ≠ '=')⟩

/-- `CodeChallengeMethod` from `src/types.ts`. -/
inductive CodeChallengeMethod where
  | S256
  | plain
deriving DecidableEq, Repr

/-- `generateCodeChallenge(codeVerifier, method)`; `digest` is the
`Crypto.digestStringAsync(SHA256, ·, BASE64)` primitive. -/
def generateCodeChallenge (digest : String → String) (codeVerifier : String)
    (method : CodeChallengeMethod) : String :=
  match method with
  | .plain => codeVerifier
  | .S256 => base64UrlEncode (digest codeVerifier)

theorem generateCodeChallenge_plain_id (digest : String → String) (v : String) :
    generateCodeChallenge digest v .plain = v := rfl

theorem generateCodeChallenge_S256_ne_of_length (digest : String → String) (v : String)
    (hlen : (base64UrlEncode (digest v)).length ≠ v.length) :
    generateCodeChallenge digest v .S256 ≠ v := by
  intro h
  exact hlen (congrArg String.length h)

end AuthKit
